import Mathlib

set_option maxRecDepth 100000

/-!
Shallow embedding of `selfdrive/car/toyota/carcontroller.py` (the per-cycle
CAN command synthesizer for the Toyota actuator interface) and proofs about
its per-cycle behavior.

Conventions of the embedding:
* Python floats are modelled as rationals (`ℚ`), Python ints as `ℤ`/`Nat`.
* The external collaborators that are not part of this repository snapshot
  (the torque/angle limit library, the CAN packer, the static-message table,
  unit-conversion and interpolation helpers from `common/`, and the
  vehicle-class membership tables from `values.py`) are modelled as opaque
  parameters (`Externals`) or, where the spec pins their meaning down, as
  definitions marked "Modelled from the spec".
* Each CAN message is represented by the semantic command handed to the
  encoder, not by its wire bytes; the encoder itself is out of scope.
-/

namespace ToyotaCC

/-- Gear selector positions (`car.CarState.GearShifter`); only `park` and
`drive` are inspected by the controller, the rest are collapsed into the
remaining constructors. -/
inductive GearShifter where
  | park
  | drive
  | neutral
  | reverse
  | unknown
deriving DecidableEq

/-- Visual alert kinds (`car.CarControl.HUDControl.VisualAlert`); only
`fcw`, `steerRequired` and `ldw` are inspected. -/
inductive VisualAlert where
  | none
  | fcw
  | steerRequired
  | ldw
  | other
deriving DecidableEq

/-- Python `abs` on a float, modelled on `ℚ`.  (Defined by cases rather
than through the lattice `|·|` so that concrete runs reduce in the
kernel; `rabs_eq_abs` below identifies it with `|·|`.) -/
def rabs (q : ℚ) : ℚ := if q < 0 then -q else q

theorem rabs_eq_abs (q : ℚ) : rabs q = |q| := by
  unfold rabs
  split
  · next h => exact (abs_of_neg h).symm
  · next h => exact (abs_of_nonneg (not_lt.mp h)).symm

/-- `common.numpy_fast.clip`, i.e. Python `max(lo, min(hi, x))`.  Modelled
from the spec: the external limit library's clamp contract, "clamp
defensively at the point of use". -/
def clip (x lo hi : ℚ) : ℚ :=
  let m := if hi ≤ x then hi else x
  if m ≤ lo then lo else m

theorem clip_eq_max_min (x lo hi : ℚ) : clip x lo hi = max lo (min hi x) := by
  unfold clip
  rw [← min_def]
  rcases le_total (min hi x) lo with h | h
  · rw [if_pos h, max_eq_left h]
  · rcases eq_or_lt_of_le h with h2 | h2
    · rw [← h2]
      simp
    · rw [if_neg (not_le.mpr h2), max_eq_right h]

/-- Floor of a rational as an integer (`q.den` is positive, so flooring is
floor-division of the numerator by the denominator). -/
def rfloor (q : ℚ) : ℤ := Int.fdiv q.num q.den

/-- Python `int(round(x))`: round half to even, as Python 3 `round` does. -/
def pyRound (q : ℚ) : ℤ :=
  let f := rfloor q
  let r := q - (f : ℚ)
  if r < 1/2 then f
  else if 1/2 < r then f + 1
  else if f % 2 = 0 then f else f + 1

/-- `common.numpy_fast.interp` specialised to three breakpoints. Modelled
from the spec: "three-point piecewise-linear interpolation over speed",
with flat extrapolation outside the breakpoint range. -/
def interp3 (x x0 x1 x2 y0 y1 y2 : ℚ) : ℚ :=
  if x ≤ x0 then y0
  else if x ≤ x1 then y0 + (x - x0) * (y1 - y0) / (x1 - x0)
  else if x ≤ x2 then y1 + (x - x1) * (y2 - y1) / (x2 - x1)
  else y2

/-- LKA limit: EPS faults if torque is applied while the steering rate is
above this for too long (deg/s). -/
def MAX_STEER_RATE : ℚ := 100

/-- Number of tx control frames needed before torque can be cut. -/
def MAX_STEER_RATE_FRAMES : Nat := 18

/-- EPS allows user torque above this threshold for 50 frames before
permanently faulting. -/
def MAX_USER_TORQUE : ℚ := 500

/-- LTA limit: EPS ignores commands above this angle (deg). -/
def MAX_STEER_ANGLE : ℚ := 949461/10000

/-- Slightly above steering pressed, allows some resistance when changing
lanes. -/
def MAX_DRIVER_TORQUE_ALLOWANCE : ℚ := 150

/-- `Conversions.KPH_TO_MS`. Modelled from the spec: the 10 km/h threshold
is expressed in m/s, so one km/h is 5/18 m/s. -/
def KPH_TO_MS : ℚ := 5/18

/-- Speed threshold for the automatic door lock (10 km/h in m/s). -/
def LOCK_AT_SPEED : ℚ := 10 * KPH_TO_MS

/-- Cap on the gas-interceptor command (defined inline in `update`). -/
def MAX_INTERCEPTOR_GAS : ℚ := 1/2

/-- Immutable per-vehicle configuration: `CP`, `CarControllerParams` and the
three `Params()` feature flags read at construction.  Vehicle-class table
membership (`values.py`, not part of this snapshot) is modelled from the
spec as boolean class tags. -/
structure CarParams where
  steerControlTypeAngle : Bool
  enableGasInterceptor : Bool
  openpilotLongitudinalControl : Bool
  enableDsu : Bool
  carInTSS2 : Bool
  carInNoStopTimer : Bool
  carInUnsupportedDsu : Bool
  carIsPriusV : Bool
  carInRav4PedalGroup : Bool
  carIsCorolla : Bool
  STEER_MAX : ℤ
  ACCEL_MIN : ℚ
  ACCEL_MAX : ℚ
  MIN_ACC_SPEED : ℚ
  PEDAL_TRANSITION : ℚ
  dp_toyota_auto_lock : Bool
  dp_toyota_auto_unlock : Bool
  dp_toyota_sng : Bool
deriving DecidableEq

/-- One entry of the external `STATIC_DSU_MSGS` table
`(addr, cars, bus, fr_step, vl)`; membership of the configured fingerprint
in `cars` is pre-evaluated into `carIn`, the payload bytes are abstracted
to an identifier. -/
structure StaticEntry where
  addr : Nat
  carIn : Bool
  bus : Nat
  fr_step : Nat
  vl : Nat
deriving DecidableEq

/-- External collaborators consumed, not reimplemented: the torque and
angle limit library (`selfdrive/car/__init__.py`) and the static keep-alive
message table. -/
structure Externals where
  apply_meas_steer_torque_limits : ℤ → ℤ → ℚ → ℤ
  apply_std_steer_angle_limits : ℚ → ℚ → ℚ → ℚ
  static_dsu_msgs : List StaticEntry

/-- Desired actuator values (`CC.actuators`), also the shape of the echoed
output. -/
structure Actuators where
  steer : ℚ
  steeringAngleDeg : ℚ
  accel : ℚ
  gas : ℚ
  steerOutputCan : ℤ
deriving DecidableEq

/-- HUD control inputs (`CC.hudControl`). -/
structure HUDControl where
  leadVisible : Bool
  visualAlert : VisualAlert
  leftLaneVisible : Bool
  rightLaneVisible : Bool
  leftLaneDepart : Bool
  rightLaneDepart : Bool
deriving DecidableEq

/-- Caller input (`CC`); `cruiseControlCancel` is `CC.cruiseControl.cancel`. -/
structure CarControl where
  latActive : Bool
  longActive : Bool
  enabled : Bool
  cruiseControlCancel : Bool
  actuators : Actuators
  hudControl : HUDControl
deriving DecidableEq

/-- Vehicle state snapshot (`CS.out` plus the two decoder fields
`CS.pcm_acc_status`, `CS.acc_type`, `CS.lkas_hud` used here; `lkas_hud` is
opaque to the controller and abstracted to an identifier). -/
structure CarState where
  steeringTorque : ℚ
  steeringTorqueEps : ℚ
  steeringRateDeg : ℚ
  steeringAngleDeg : ℚ
  steeringAngleOffsetDeg : ℚ
  vEgo : ℚ
  standstill : Bool
  gearShifter : GearShifter
  doorOpen : Bool
  pcm_acc_status : Nat
  acc_type : Nat
  lkas_hud : Nat
deriving DecidableEq

/-- The mutable controller state (`self.*` of `CarController`). -/
structure CarControllerState where
  frame : Nat
  last_steer : ℤ
  last_angle : ℚ
  alert_active : Bool
  last_standstill : Bool
  standstill_req : Bool
  steer_rate_counter : Nat
  gas : ℚ
  accel : ℚ
  dp_toyota_auto_lock_gear_prev : GearShifter
  dp_toyota_auto_lock_once : Bool
deriving DecidableEq

/-- `CarController.__init__`: all-zero / default state. -/
def initState : CarControllerState :=
  { frame := 0
    last_steer := 0
    last_angle := 0
    alert_active := false
    last_standstill := false
    standstill_req := false
    steer_rate_counter := 0
    gas := 0
    accel := 0
    dp_toyota_auto_lock_gear_prev := GearShifter.park
    dp_toyota_auto_lock_once := false }

/-- Semantic CAN messages handed to the (external) encoder, in the order of
the `create_*` / `make_can_msg` calls of the source.  `doorLockCmd true` is
`make_can_msg(0x750, UNLOCK_CMD, 0)`, `doorLockCmd false` is the LOCK
payload. -/
inductive CanMsg where
  | doorLockCmd (unlock : Bool)
  | steerCommand (torque : ℤ) (req : Nat)
  | ltaSteerCommand (angle : ℚ) (active : Bool) (counter : Nat) (setme : Nat)
  | accCancelCommand
  | accelCommand (accel : ℚ) (cancel : Bool) (standstill : Bool) (lead : Bool) (accType : Nat)
  | gasInterceptorCommand (gas : ℚ) (counter : Nat)
  | uiCommand (steerAlert : Bool) (cancel : Bool) (llv rlv lld rld : Bool) (enabled : Bool) (lkas : Nat)
  | fcwCommand (fcw : Bool)
  | staticMsg (addr : Nat) (vl : Nat) (bus : Nat)
deriving DecidableEq

/-- Line 65: `lat_active = CC.latActive and abs(CS.out.steeringTorque) <
MAX_USER_TORQUE`. -/
def lat_active_calc (cc : CarControl) (cs : CarState) : Bool :=
  cc.latActive && decide (rabs cs.steeringTorque < MAX_USER_TORQUE)

/-- Lines 64 and 153–154: the cancel request, composed of the caller's
request and the forced cancel when the PCM reports engaged while openpilot
is disabled.  The flag is only read after line 154, so composing it up
front is faithful. -/
def pcm_cancel_calc (cc : CarControl) (cs : CarState) : Bool :=
  cc.cruiseControlCancel || (!cc.enabled && decide (cs.pcm_acc_status ≠ 0))

/-- Lines 73–83: door auto lock / unlock block.  Returns the emitted
messages, the new `dp_toyota_auto_lock_once` latch and the new
`dp_toyota_auto_lock_gear_prev`. -/
def doorStep (P : CarParams) (s : CarControllerState) (cs : CarState) :
    List CanMsg × Bool × GearShifter :=
  if cs.doorOpen then ([], s.dp_toyota_auto_lock_once, s.dp_toyota_auto_lock_gear_prev)
  else
    let gear := cs.gearShifter
    if gear = GearShifter.park ∧ s.dp_toyota_auto_lock_gear_prev ≠ gear then
      ((if P.dp_toyota_auto_lock then [CanMsg.doorLockCmd true] else []), false, gear)
    else if gear = GearShifter.drive ∧ s.dp_toyota_auto_lock_once = false ∧ LOCK_AT_SPEED ≤ cs.vEgo then
      ((if P.dp_toyota_auto_unlock then [CanMsg.doorLockCmd false] else []), true, gear)
    else ([], s.dp_toyota_auto_lock_once, gear)

/-- Lines 85–120: steer-torque computation, steer-rate fault counter,
request flag and the LTA angle variant.  Returns
`(apply_steer, apply_steer_req, steer_rate_counter', last_angle')`. -/
def lateralStep (P : CarParams) (E : Externals) (s : CarControllerState)
    (cc : CarControl) (cs : CarState) : ℤ × Nat × Nat × ℚ :=
  let lat_active := lat_active_calc cc cs
  let new_steer : ℤ := pyRound (cc.actuators.steer * (P.STEER_MAX : ℚ))
  let apply_steer0 := E.apply_meas_steer_torque_limits new_steer s.last_steer cs.steeringTorqueEps
  let counter1 : Nat :=
    if lat_active && decide (MAX_STEER_RATE ≤ rabs cs.steeringRateDeg) then s.steer_rate_counter + 1
    else 0
  let t1 : ℤ × Nat × Nat :=
    if !lat_active then (0, 0, counter1)
    else if decide (MAX_STEER_RATE_FRAMES < counter1) then (apply_steer0, 0, 0)
    else (apply_steer0, 1, counter1)
  if P.steerControlTypeAngle then
    if s.frame % 2 = 0 then
      let a0 := cc.actuators.steeringAngleDeg + cs.steeringAngleOffsetDeg
      let a1 := E.apply_std_steer_angle_limits a0 s.last_angle cs.vEgo
      let a2 := if lat_active then a1 else cs.steeringAngleDeg + cs.steeringAngleOffsetDeg
      (0, 0, t1.2.2, clip a2 (-MAX_STEER_ANGLE) MAX_STEER_ANGLE)
    else (0, 0, t1.2.2, s.last_angle)
  else (t1.1, t1.2.1, t1.2.2, s.last_angle)

/-- Lines 126–131: the LTA steer message, sent every other frame on TSS2
vehicles; `lastAngle` is `self.last_angle` after the lateral step. -/
def ltaMsgList (P : CarParams) (s : CarControllerState) (cc : CarControl)
    (cs : CarState) (lastAngle : ℚ) : List CanMsg :=
  if decide (s.frame % 2 = 0) && P.carInTSS2 then
    let lta_active := lat_active_calc cc cs && P.steerControlTypeAngle
    let full_torque_condition :=
      decide (rabs cs.steeringTorqueEps < (P.STEER_MAX : ℚ)) &&
      decide (rabs cs.steeringTorque < MAX_DRIVER_TORQUE_ALLOWANCE)
    [CanMsg.ltaSteerCommand (if lta_active then lastAngle else 0) lta_active (s.frame / 2)
      (if lta_active && full_torque_condition then 100 else 0)]
  else []

/-- Lines 137–142: the per-vehicle-class speed-interpolated pedal scale. -/
def PEDAL_SCALE_calc (P : CarParams) (v : ℚ) : ℚ :=
  if P.carInRav4PedalGroup then
    interp3 v 0 P.MIN_ACC_SPEED (P.MIN_ACC_SPEED + P.PEDAL_TRANSITION) (15/100) (3/10) 0
  else if P.carIsCorolla then
    interp3 v 0 P.MIN_ACC_SPEED (P.MIN_ACC_SPEED + P.PEDAL_TRANSITION) (3/10) (4/10) 0
  else
    interp3 v 0 P.MIN_ACC_SPEED (P.MIN_ACC_SPEED + P.PEDAL_TRANSITION) (4/10) (1/2) 0

/-- Line 144: the creep / windbrake offset. -/
def pedal_offset_calc (P : CarParams) (v : ℚ) : ℚ :=
  interp3 v 0 (23/10) (P.MIN_ACC_SPEED + P.PEDAL_TRANSITION) (-(4/10)) 0 (2/10)

/-- Lines 134–148: the gas-interceptor command value. -/
def interceptor_gas_cmd_calc (P : CarParams) (cc : CarControl) (cs : CarState) : ℚ :=
  if P.enableGasInterceptor && cc.longActive then
    clip (PEDAL_SCALE_calc P cs.vEgo * (cc.actuators.accel + pedal_offset_calc P cs.vEgo))
      0 MAX_INTERCEPTOR_GAS
  else 0

/-- Line 157 condition: entry edge into standstill with the suppression
flag unset and the vehicle outside the no-stop-timer class or using the
pedal interceptor. -/
def standstillEntryCond (P : CarParams) (s : CarControllerState) (cs : CarState) : Bool :=
  !P.dp_toyota_sng && cs.standstill && !s.last_standstill &&
    (!P.carInNoStopTimer || P.enableGasInterceptor)

/-- Lines 156–161: the standstill-request state update. -/
def standstillReqNext (P : CarParams) (s : CarControllerState) (cs : CarState) : Bool :=
  let r1 := if standstillEntryCond P s cs then true else s.standstill_req
  if cs.pcm_acc_status ≠ 8 then false else r1

/-- Lines 166–176: the longitudinal accel / cancel message block.  Returns
the emitted messages and the new `self.accel`. -/
def longStep (P : CarParams) (s : CarControllerState) (cc : CarControl)
    (cs : CarState) (pcmAccel : ℚ) (ssr : Bool) : List CanMsg × ℚ :=
  let pcm_cancel := pcm_cancel_calc cc cs
  if (decide (s.frame % 3 = 0) && P.openpilotLongitudinalControl) || pcm_cancel then
    let lead := cc.hudControl.leadVisible || decide (cs.vEgo < 12)
    if pcm_cancel && P.carInUnsupportedDsu then ([CanMsg.accCancelCommand], s.accel)
    else if P.openpilotLongitudinalControl then
      ([CanMsg.accelCommand pcmAccel pcm_cancel ssr lead cs.acc_type], pcmAccel)
    else ([CanMsg.accelCommand 0 pcm_cancel false lead cs.acc_type], s.accel)
  else ([], s.accel)

/-- Lines 178–182: the gas-interceptor message block.  Returns the emitted
messages and the new `self.gas`. -/
def gasStep (P : CarParams) (s : CarControllerState) (cc : CarControl)
    (cs : CarState) : List CanMsg × ℚ :=
  if decide (s.frame % 2 = 0) && P.enableGasInterceptor && P.openpilotLongitudinalControl then
    ([CanMsg.gasInterceptorCommand (interceptor_gas_cmd_calc P cc cs) (s.frame / 2)],
     interceptor_gas_cmd_calc P cc cs)
  else ([], s.gas)

/-- The freshly recomputed "any alert active now" condition of lines
189–190 (`fcw_alert or steer_alert`). -/
def alertCondCalc (hud : HUDControl) : Bool :=
  decide (hud.visualAlert = VisualAlert.fcw) ||
    (decide (hud.visualAlert = VisualAlert.steerRequired) ||
      decide (hud.visualAlert = VisualAlert.ldw))

/-- Lines 185–207: the HUD / UI alert block.  Returns the UI messages, the
FCW messages and the new `alert_active` latch. -/
def uiStep (P : CarParams) (s : CarControllerState) (cc : CarControl)
    (cs : CarState) : List CanMsg × List CanMsg × Bool :=
  if P.carIsPriusV then ([], [], s.alert_active)
  else
    let pcm_cancel := pcm_cancel_calc cc cs
    let fcw_alert := decide (cc.hudControl.visualAlert = VisualAlert.fcw)
    let steer_alert :=
      decide (cc.hudControl.visualAlert = VisualAlert.steerRequired) ||
        decide (cc.hudControl.visualAlert = VisualAlert.ldw)
    let p : Bool × Bool :=
      if (fcw_alert || steer_alert) ≠ s.alert_active then (true, !s.alert_active)
      else if pcm_cancel then (true, s.alert_active)
      else (false, s.alert_active)
    let uiM :=
      if decide (s.frame % 20 = 0) || p.1 then
        [CanMsg.uiCommand steer_alert pcm_cancel cc.hudControl.leftLaneVisible
          cc.hudControl.rightLaneVisible cc.hudControl.leftLaneDepart
          cc.hudControl.rightLaneDepart cc.enabled cs.lkas_hud]
      else []
    let fcwM :=
      if (decide (s.frame % 100 = 0) || p.1) && P.enableDsu then [CanMsg.fcwCommand fcw_alert]
      else []
    (uiM, fcwM, p.2)

/-- Lines 210–212: the static keep-alive messages due this frame. -/
def staticMsgList (P : CarParams) (E : Externals) (s : CarControllerState) : List CanMsg :=
  E.static_dsu_msgs.filterMap fun e =>
    if decide (s.frame % e.fr_step = 0) && P.enableDsu && e.carIn then
      some (CanMsg.staticMsg e.addr e.vl e.bus)
    else none

/-- `CarController.update` (lines 61–222): one full control cycle.  Returns
the new controller state, the echoed actuators and the ordered message
list. -/
def update (P : CarParams) (E : Externals) (s : CarControllerState)
    (cc : CarControl) (cs : CarState) :
    CarControllerState × Actuators × List CanMsg :=
  let door := doorStep P s cs
  let lat := lateralStep P E s cc cs
  let apply_steer := lat.1
  let apply_steer_req := lat.2.1
  let counter2 := lat.2.2.1
  let last_angle1 := lat.2.2.2
  let pcm_accel_cmd := clip cc.actuators.accel P.ACCEL_MIN P.ACCEL_MAX
  let ssr := standstillReqNext P s cs
  let long := longStep P s cc cs pcm_accel_cmd ssr
  let gas := gasStep P s cc cs
  let ui := uiStep P s cc cs
  let can_sends :=
    door.1 ++ ([CanMsg.steerCommand apply_steer apply_steer_req] ++
      (ltaMsgList P s cc cs last_angle1 ++ (long.1 ++ (gas.1 ++ (ui.1 ++ (ui.2.1 ++
        staticMsgList P E s))))))
  let new_actuators : Actuators :=
    { cc.actuators with
        steer := (apply_steer : ℚ) / (P.STEER_MAX : ℚ)
        steerOutputCan := apply_steer
        steeringAngleDeg := last_angle1
        accel := long.2
        gas := gas.2 }
  ({ frame := s.frame + 1
     last_steer := apply_steer
     last_angle := last_angle1
     alert_active := ui.2.2
     last_standstill := cs.standstill
     standstill_req := ssr
     steer_rate_counter := counter2
     gas := gas.2
     accel := long.2
     dp_toyota_auto_lock_gear_prev := door.2.2
     dp_toyota_auto_lock_once := door.2.1 },
   new_actuators, can_sends)

/-- One cycle viewed as a state transformer (used for multi-cycle claims). -/
def stepSt (P : CarParams) (E : Externals) (s : CarControllerState)
    (i : CarControl × CarState) : CarControllerState :=
  (update P E s i.1 i.2).1

/-- Iterated cycles over a list of per-cycle inputs. -/
def runSt (P : CarParams) (E : Externals) (s : CarControllerState)
    (l : List (CarControl × CarState)) : CarControllerState :=
  l.foldl (stepSt P E) s

/-- The emission stage a message belongs to, in the fixed per-cycle order
of the source: door commands, steer torque, steer angle (LTA),
longitudinal accel / cancel, pedal interceptor, UI alert,
forward-collision, static keep-alive. -/
def stage : CanMsg → Nat
  | .doorLockCmd _ => 0
  | .steerCommand _ _ => 1
  | .ltaSteerCommand _ _ _ _ => 2
  | .accCancelCommand => 3
  | .accelCommand _ _ _ _ _ => 3
  | .gasInterceptorCommand _ _ => 4
  | .uiCommand _ _ _ _ _ _ _ _ => 5
  | .fcwCommand _ => 6
  | .staticMsg _ _ _ => 7

/-! ### Sample configurations and inputs, used to instantiate theorems at
concrete points. -/

/-- Sample externals: identity torque / angle limiting and an empty static
message table. -/
def E0 : Externals :=
  { apply_meas_steer_torque_limits := fun n _ _ => n
    apply_std_steer_angle_limits := fun a _ _ => a
    static_dsu_msgs := [] }

/-- Sample vehicle configuration: torque steering, openpilot longitudinal,
no interceptor, both door-automation flags enabled. -/
def P0 : CarParams :=
  { steerControlTypeAngle := false
    enableGasInterceptor := false
    openpilotLongitudinalControl := true
    enableDsu := false
    carInTSS2 := false
    carInNoStopTimer := false
    carInUnsupportedDsu := false
    carIsPriusV := false
    carInRav4PedalGroup := false
    carIsCorolla := false
    STEER_MAX := 1500
    ACCEL_MIN := -7/2
    ACCEL_MAX := 3/2
    MIN_ACC_SPEED := 8
    PEDAL_TRANSITION := 2
    dp_toyota_auto_lock := true
    dp_toyota_auto_unlock := true
    dp_toyota_sng := false }

/-- Sample neutral actuator request. -/
def a0 : Actuators :=
  { steer := 0
    steeringAngleDeg := 0
    accel := 0
    gas := 0
    steerOutputCan := 0 }

/-- Sample HUD input with no alert. -/
def hud0 : HUDControl :=
  { leadVisible := false
    visualAlert := .none
    leftLaneVisible := false
    rightLaneVisible := false
    leftLaneDepart := false
    rightLaneDepart := false }

/-- Sample caller input: lateral requested, longitudinal idle, engaged,
no cancel. -/
def cc0 : CarControl :=
  { latActive := true
    longActive := false
    enabled := true
    cruiseControlCancel := false
    actuators := a0
    hudControl := hud0 }

/-- Sample vehicle snapshot: rolling in drive, doors closed, PCM status 8. -/
def cs0 : CarState :=
  { steeringTorque := 0
    steeringTorqueEps := 0
    steeringRateDeg := 0
    steeringAngleDeg := 0
    steeringAngleOffsetDeg := 0
    vEgo := 0
    standstill := false
    gearShifter := .drive
    doorOpen := false
    pcm_acc_status := 8
    acc_type := 0
    lkas_hud := 0 }

/-! ### Segment structure of the per-cycle output list. -/

theorem update_msgs (P : CarParams) (E : Externals) (s : CarControllerState)
    (cc : CarControl) (cs : CarState) :
    (update P E s cc cs).2.2 =
      (doorStep P s cs).1 ++
        ([CanMsg.steerCommand (lateralStep P E s cc cs).1 (lateralStep P E s cc cs).2.1] ++
          (ltaMsgList P s cc cs (lateralStep P E s cc cs).2.2.2 ++
            ((longStep P s cc cs (clip cc.actuators.accel P.ACCEL_MIN P.ACCEL_MAX)
                (standstillReqNext P s cs)).1 ++
              ((gasStep P s cc cs).1 ++
                ((uiStep P s cc cs).1 ++ ((uiStep P s cc cs).2.1 ++
                  staticMsgList P E s)))))) := rfl

theorem doorStep_stage (P : CarParams) (s : CarControllerState) (cs : CarState) :
    ∀ m ∈ (doorStep P s cs).1, stage m = 0 := by
  intro m hm
  unfold doorStep at hm
  dsimp only at hm
  split at hm
  · simp at hm
  · split at hm
    · split at hm <;> simp_all [stage]
    · split at hm
      · split at hm <;> simp_all [stage]
      · simp at hm

theorem steerSingleton_stage (t : ℤ) (r : Nat) :
    ∀ m ∈ [CanMsg.steerCommand t r], stage m = 1 := by
  simp [stage]

theorem ltaMsgList_stage (P : CarParams) (s : CarControllerState) (cc : CarControl)
    (cs : CarState) (la : ℚ) : ∀ m ∈ ltaMsgList P s cc cs la, stage m = 2 := by
  intro m hm
  unfold ltaMsgList at hm
  dsimp only at hm
  split at hm
  · simp_all [stage]
  · simp at hm

theorem longStep_stage (P : CarParams) (s : CarControllerState) (cc : CarControl)
    (cs : CarState) (pa : ℚ) (ssr : Bool) :
    ∀ m ∈ (longStep P s cc cs pa ssr).1, stage m = 3 := by
  intro m hm
  unfold longStep at hm
  dsimp only at hm
  split at hm
  · split at hm
    · simp_all [stage]
    · split at hm <;> simp_all [stage]
  · simp at hm

theorem gasStep_stage (P : CarParams) (s : CarControllerState) (cc : CarControl)
    (cs : CarState) : ∀ m ∈ (gasStep P s cc cs).1, stage m = 4 := by
  intro m hm
  unfold gasStep at hm
  split at hm <;> simp_all [stage]

theorem uiStep_stage_ui (P : CarParams) (s : CarControllerState) (cc : CarControl)
    (cs : CarState) : ∀ m ∈ (uiStep P s cc cs).1, stage m = 5 := by
  intro m hm
  unfold uiStep at hm
  dsimp only at hm
  split at hm
  · simp at hm
  · split at hm <;> simp_all [stage]

theorem uiStep_stage_fcw (P : CarParams) (s : CarControllerState) (cc : CarControl)
    (cs : CarState) : ∀ m ∈ (uiStep P s cc cs).2.1, stage m = 6 := by
  intro m hm
  unfold uiStep at hm
  dsimp only at hm
  split at hm
  · simp at hm
  · split at hm <;> simp_all [stage]

theorem staticMsgList_stage (P : CarParams) (E : Externals) (s : CarControllerState) :
    ∀ m ∈ staticMsgList P E s, stage m = 7 := by
  intro m hm
  unfold staticMsgList at hm
  rcases List.mem_filterMap.mp hm with ⟨e, _, he⟩
  split at he
  · cases he
    rfl
  · cases he

theorem filter_beq_of_const {l : List CanMsg} {k : Nat} (j : Nat)
    (h : ∀ m ∈ l, stage m = k) :
    l.filter (fun m => stage m == j) = if k = j then l else [] := by
  split
  · next hkj =>
      subst hkj
      refine List.filter_eq_self.mpr fun a ha => ?_
      simp [h a ha]
  · next hkj =>
      refine List.filter_eq_nil_iff.mpr fun a ha => ?_
      simp [h a ha]
      omega

theorem update_filter_door (P : CarParams) (E : Externals) (s : CarControllerState)
    (cc : CarControl) (cs : CarState) :
    ((update P E s cc cs).2.2).filter (fun m => stage m == 0) = (doorStep P s cs).1 := by
  rw [update_msgs]
  simp only [List.filter_append]
  rw [filter_beq_of_const 0 (doorStep_stage P s cs),
      filter_beq_of_const 0 (steerSingleton_stage _ _),
      filter_beq_of_const 0 (ltaMsgList_stage P s cc cs _),
      filter_beq_of_const 0 (longStep_stage P s cc cs _ _),
      filter_beq_of_const 0 (gasStep_stage P s cc cs),
      filter_beq_of_const 0 (uiStep_stage_ui P s cc cs),
      filter_beq_of_const 0 (uiStep_stage_fcw P s cc cs),
      filter_beq_of_const 0 (staticMsgList_stage P E s)]
  simp

theorem update_filter_steer (P : CarParams) (E : Externals) (s : CarControllerState)
    (cc : CarControl) (cs : CarState) :
    ((update P E s cc cs).2.2).filter (fun m => stage m == 1) =
      [CanMsg.steerCommand (lateralStep P E s cc cs).1 (lateralStep P E s cc cs).2.1] := by
  rw [update_msgs]
  simp only [List.filter_append]
  rw [filter_beq_of_const 1 (doorStep_stage P s cs),
      filter_beq_of_const 1 (steerSingleton_stage _ _),
      filter_beq_of_const 1 (ltaMsgList_stage P s cc cs _),
      filter_beq_of_const 1 (longStep_stage P s cc cs _ _),
      filter_beq_of_const 1 (gasStep_stage P s cc cs),
      filter_beq_of_const 1 (uiStep_stage_ui P s cc cs),
      filter_beq_of_const 1 (uiStep_stage_fcw P s cc cs),
      filter_beq_of_const 1 (staticMsgList_stage P E s)]
  simp

theorem update_filter_lta (P : CarParams) (E : Externals) (s : CarControllerState)
    (cc : CarControl) (cs : CarState) :
    ((update P E s cc cs).2.2).filter (fun m => stage m == 2) =
      ltaMsgList P s cc cs (lateralStep P E s cc cs).2.2.2 := by
  rw [update_msgs]
  simp only [List.filter_append]
  rw [filter_beq_of_const 2 (doorStep_stage P s cs),
      filter_beq_of_const 2 (steerSingleton_stage _ _),
      filter_beq_of_const 2 (ltaMsgList_stage P s cc cs _),
      filter_beq_of_const 2 (longStep_stage P s cc cs _ _),
      filter_beq_of_const 2 (gasStep_stage P s cc cs),
      filter_beq_of_const 2 (uiStep_stage_ui P s cc cs),
      filter_beq_of_const 2 (uiStep_stage_fcw P s cc cs),
      filter_beq_of_const 2 (staticMsgList_stage P E s)]
  simp

theorem update_filter_long (P : CarParams) (E : Externals) (s : CarControllerState)
    (cc : CarControl) (cs : CarState) :
    ((update P E s cc cs).2.2).filter (fun m => stage m == 3) =
      (longStep P s cc cs (clip cc.actuators.accel P.ACCEL_MIN P.ACCEL_MAX)
        (standstillReqNext P s cs)).1 := by
  rw [update_msgs]
  simp only [List.filter_append]
  rw [filter_beq_of_const 3 (doorStep_stage P s cs),
      filter_beq_of_const 3 (steerSingleton_stage _ _),
      filter_beq_of_const 3 (ltaMsgList_stage P s cc cs _),
      filter_beq_of_const 3 (longStep_stage P s cc cs _ _),
      filter_beq_of_const 3 (gasStep_stage P s cc cs),
      filter_beq_of_const 3 (uiStep_stage_ui P s cc cs),
      filter_beq_of_const 3 (uiStep_stage_fcw P s cc cs),
      filter_beq_of_const 3 (staticMsgList_stage P E s)]
  simp

theorem update_filter_gas (P : CarParams) (E : Externals) (s : CarControllerState)
    (cc : CarControl) (cs : CarState) :
    ((update P E s cc cs).2.2).filter (fun m => stage m == 4) = (gasStep P s cc cs).1 := by
  rw [update_msgs]
  simp only [List.filter_append]
  rw [filter_beq_of_const 4 (doorStep_stage P s cs),
      filter_beq_of_const 4 (steerSingleton_stage _ _),
      filter_beq_of_const 4 (ltaMsgList_stage P s cc cs _),
      filter_beq_of_const 4 (longStep_stage P s cc cs _ _),
      filter_beq_of_const 4 (gasStep_stage P s cc cs),
      filter_beq_of_const 4 (uiStep_stage_ui P s cc cs),
      filter_beq_of_const 4 (uiStep_stage_fcw P s cc cs),
      filter_beq_of_const 4 (staticMsgList_stage P E s)]
  simp

theorem update_filter_ui (P : CarParams) (E : Externals) (s : CarControllerState)
    (cc : CarControl) (cs : CarState) :
    ((update P E s cc cs).2.2).filter (fun m => stage m == 5) = (uiStep P s cc cs).1 := by
  rw [update_msgs]
  simp only [List.filter_append]
  rw [filter_beq_of_const 5 (doorStep_stage P s cs),
      filter_beq_of_const 5 (steerSingleton_stage _ _),
      filter_beq_of_const 5 (ltaMsgList_stage P s cc cs _),
      filter_beq_of_const 5 (longStep_stage P s cc cs _ _),
      filter_beq_of_const 5 (gasStep_stage P s cc cs),
      filter_beq_of_const 5 (uiStep_stage_ui P s cc cs),
      filter_beq_of_const 5 (uiStep_stage_fcw P s cc cs),
      filter_beq_of_const 5 (staticMsgList_stage P E s)]
  simp

theorem mem_update_iff_mem_filter (P : CarParams) (E : Externals) (s : CarControllerState)
    (cc : CarControl) (cs : CarState) {m : CanMsg} (j : Nat) (hj : stage m = j) :
    m ∈ (update P E s cc cs).2.2 ↔
      m ∈ ((update P E s cc cs).2.2).filter (fun x => stage x == j) := by
  rw [List.mem_filter]
  simp [hj]

theorem any_iff_filter_ne_nil (l : List CanMsg) (p : CanMsg → Bool) :
    l.any p = true ↔ l.filter p ≠ [] := by
  rw [List.any_eq_true]
  constructor
  · rintro ⟨x, hx, hpx⟩ hnil
    exact absurd hpx (by simpa using List.filter_eq_nil_iff.mp hnil x hx)
  · intro h
    rcases List.exists_mem_of_ne_nil _ h with ⟨x, hx⟩
    rcases List.mem_filter.mp hx with ⟨hxl, hpx⟩
    exact ⟨x, hxl, hpx⟩

/-! ### Stage ordering of the output list. -/

theorem pairwise_stage_of_const {l : List CanMsg} {k : Nat} (h : ∀ m ∈ l, stage m = k) :
    l.Pairwise (fun a b => stage a ≤ stage b) := by
  induction l with
  | nil => exact List.Pairwise.nil
  | cons a t ih =>
      constructor
      · intro b hb
        rw [h a (List.mem_cons_self a t), h b (List.mem_cons_of_mem a hb)]
      · exact ih fun m hm => h m (List.mem_cons_of_mem a hm)

theorem pairwise_stage_append {l1 l2 : List CanMsg} {k : Nat}
    (h1 : ∀ m ∈ l1, stage m = k) (h2 : ∀ m ∈ l2, k ≤ stage m)
    (p2 : l2.Pairwise (fun a b => stage a ≤ stage b)) :
    (l1 ++ l2).Pairwise (fun a b => stage a ≤ stage b) := by
  rw [List.pairwise_append]
  exact ⟨pairwise_stage_of_const h1, p2, fun a ha b hb => h1 a ha ▸ h2 b hb⟩

theorem stage_bound_append {l1 l2 : List CanMsg} {k : Nat}
    (h1 : ∀ m ∈ l1, k ≤ stage m) (h2 : ∀ m ∈ l2, k ≤ stage m) :
    ∀ m ∈ l1 ++ l2, k ≤ stage m := by
  intro m hm
  rcases List.mem_append.mp hm with h | h
  exacts [h1 m h, h2 m h]

theorem stage_bound_of_const {l : List CanMsg} {c k : Nat} (h : ∀ m ∈ l, stage m = c)
    (hkc : k ≤ c) : ∀ m ∈ l, k ≤ stage m :=
  fun m hm => (h m hm).symm ▸ hkc

theorem stage_bound_mono {l : List CanMsg} {k k2 : Nat} (h : ∀ m ∈ l, k ≤ stage m)
    (hk : k2 ≤ k) : ∀ m ∈ l, k2 ≤ stage m :=
  fun m hm => le_trans hk (h m hm)

/-- C9.  Fixed per-cycle emission order: in every cycle (for any
configuration, externals, state and inputs) the returned message list is
ordered by stage — door lock / unlock messages first, then the steer
torque command, then any LTA steer angle command, then any longitudinal
accel / cancel message, then any pedal-interceptor command, then any UI
alert message, then any forward-collision message, then any static
keep-alive messages; the order is the same deterministic stage order on
every cycle. -/
theorem update_msgs_stage_ordered (P : CarParams) (E : Externals) (s : CarControllerState)
    (cc : CarControl) (cs : CarState) :
    ((update P E s cc cs).2.2).Pairwise (fun a b => stage a ≤ stage b) := by
  rw [update_msgs]
  have hs7 := staticMsgList_stage P E s
  have hfcw := uiStep_stage_fcw P s cc cs
  have hui := uiStep_stage_ui P s cc cs
  have hgas := gasStep_stage P s cc cs
  have hlong := longStep_stage P s cc cs (clip cc.actuators.accel P.ACCEL_MIN P.ACCEL_MAX)
    (standstillReqNext P s cs)
  have hlta := ltaMsgList_stage P s cc cs (lateralStep P E s cc cs).2.2.2
  have hsteer := steerSingleton_stage (lateralStep P E s cc cs).1 (lateralStep P E s cc cs).2.1
  have hdoor := doorStep_stage P s cs
  have b7 := stage_bound_of_const hs7 (le_refl 7)
  have b6 := stage_bound_append (stage_bound_of_const hfcw (le_refl 6))
    (stage_bound_mono b7 (by omega))
  have b5 := stage_bound_append (stage_bound_of_const hui (le_refl 5))
    (stage_bound_mono b6 (by omega))
  have b4 := stage_bound_append (stage_bound_of_const hgas (le_refl 4))
    (stage_bound_mono b5 (by omega))
  have b3 := stage_bound_append (stage_bound_of_const hlong (le_refl 3))
    (stage_bound_mono b4 (by omega))
  have b2 := stage_bound_append (stage_bound_of_const hlta (le_refl 2))
    (stage_bound_mono b3 (by omega))
  have b1 := stage_bound_append (stage_bound_of_const hsteer (le_refl 1))
    (stage_bound_mono b2 (by omega))
  have p7 := pairwise_stage_of_const hs7
  have p6 := pairwise_stage_append hfcw (stage_bound_mono b7 (by omega)) p7
  have p5 := pairwise_stage_append hui (stage_bound_mono b6 (by omega)) p6
  have p4 := pairwise_stage_append hgas (stage_bound_mono b5 (by omega)) p5
  have p3 := pairwise_stage_append hlong (stage_bound_mono b4 (by omega)) p4
  have p2 := pairwise_stage_append hlta (stage_bound_mono b3 (by omega)) p3
  have p1 := pairwise_stage_append hsteer (stage_bound_mono b2 (by omega)) p2
  exact pairwise_stage_append hdoor (stage_bound_mono b1 (by omega)) p1

/-! ### Door automation (C7, C8). -/

theorem mem_doorStep_unlock (P : CarParams) (s : CarControllerState) (cs : CarState) :
    CanMsg.doorLockCmd true ∈ (doorStep P s cs).1 ↔
      (cs.doorOpen = false ∧
        (cs.gearShifter = GearShifter.park ∧
          s.dp_toyota_auto_lock_gear_prev ≠ cs.gearShifter) ∧
        P.dp_toyota_auto_lock = true) := by
  unfold doorStep
  dsimp only
  split
  · next h => simp [h]
  · next h =>
      split
      · next hp =>
          obtain ⟨hp1, hp2⟩ := hp
          rw [hp1] at hp2
          split <;> simp_all
      · next hp =>
          split
          · next hd => split <;> simp_all
          · next hd => simp_all

theorem mem_doorStep_lock (P : CarParams) (s : CarControllerState) (cs : CarState) :
    CanMsg.doorLockCmd false ∈ (doorStep P s cs).1 ↔
      (cs.doorOpen = false ∧
        ¬(cs.gearShifter = GearShifter.park ∧
            s.dp_toyota_auto_lock_gear_prev ≠ cs.gearShifter) ∧
        (cs.gearShifter = GearShifter.drive ∧ s.dp_toyota_auto_lock_once = false ∧
          LOCK_AT_SPEED ≤ cs.vEgo) ∧
        P.dp_toyota_auto_unlock = true) := by
  unfold doorStep
  dsimp only
  split
  · next h => simp [h]
  · next h =>
      split
      · next hp =>
          obtain ⟨hp1, hp2⟩ := hp
          rw [hp1] at hp2
          split <;> simp_all
      · next hp =>
          split
          · next hd => split <;> simp_all
          · next hd => simp_all

/-- C8.  Door-automation flag gating: in any cycle the unlock command (the
one emitted on the transition into park with doors closed) is in the
output if and only if its own gating flag is set — the field the source
reads from the `Params()` key `dp_toyota_auto_lock` — together with the
park-transition condition; and the lock command (the one emitted in drive
at / above the speed threshold with the latch clear) is in the output if
and only if its own gating flag — the field from the key
`dp_toyota_auto_unlock` — is set together with the drive-at-speed
condition.  Each command's emission depends only on its own flag, not on
the other. -/
theorem doorFlagGating (P : CarParams) (E : Externals) (s : CarControllerState)
    (cc : CarControl) (cs : CarState) :
    (CanMsg.doorLockCmd true ∈ (update P E s cc cs).2.2 ↔
      (cs.doorOpen = false ∧
        (cs.gearShifter = GearShifter.park ∧
          s.dp_toyota_auto_lock_gear_prev ≠ cs.gearShifter) ∧
        P.dp_toyota_auto_lock = true))
    ∧ (CanMsg.doorLockCmd false ∈ (update P E s cc cs).2.2 ↔
      (cs.doorOpen = false ∧
        ¬(cs.gearShifter = GearShifter.park ∧
            s.dp_toyota_auto_lock_gear_prev ≠ cs.gearShifter) ∧
        (cs.gearShifter = GearShifter.drive ∧ s.dp_toyota_auto_lock_once = false ∧
          LOCK_AT_SPEED ≤ cs.vEgo) ∧
        P.dp_toyota_auto_unlock = true)) := by
  constructor
  · rw [@mem_update_iff_mem_filter P E s cc cs (CanMsg.doorLockCmd true) 0 rfl,
        update_filter_door]
    exact mem_doorStep_unlock P s cs
  · rw [@mem_update_iff_mem_filter P E s cc cs (CanMsg.doorLockCmd false) 0 rfl,
        update_filter_door]
    exact mem_doorStep_lock P s cs

/-- C8 witness: on a concrete park-transition cycle with
`dp_toyota_auto_lock` set, the unlock command is in the output. -/
theorem doorFlagGating_witness :
    CanMsg.doorLockCmd true ∈
      (update P0 E0 { initState with dp_toyota_auto_lock_gear_prev := GearShifter.drive }
        cc0 { cs0 with gearShifter := GearShifter.park }).2.2 :=
  (doorFlagGating P0 E0 { initState with dp_toyota_auto_lock_gear_prev := GearShifter.drive }
      cc0 { cs0 with gearShifter := GearShifter.park }).1.mpr
    (by with_unfolding_all decide)

/-- The intermediate vehicle snapshots of the C7 door-automation scenario:
drive at 5 m/s, drive at 12 m/s, park, drive at 12 m/s, doors closed,
both door-automation flags enabled in `P0`. -/
def csDrive5 : CarState := { cs0 with vEgo := 5 }

def csDrive12 : CarState := { cs0 with vEgo := 12 }

def csPark : CarState := { cs0 with gearShifter := GearShifter.park }

def doorS1 : CarControllerState := (update P0 E0 initState cc0 csDrive5).1

def doorS2 : CarControllerState := (update P0 E0 doorS1 cc0 csDrive12).1

def doorS3 : CarControllerState := (update P0 E0 doorS2 cc0 csPark).1

/-- C7 counterexample: in the claimed scenario's very first cycle — fresh
controller, doors closed, both flags enabled, drive at 5 m/s — the code
emits a door lock command, while the claim asserts no door command is
emitted during the initial drive at 5 m/s.  (5 m/s = 18 km/h is above the
10 km/h ≈ 2.78 m/s threshold, not below it.) -/
theorem doorScenario_counterexample :
    LOCK_AT_SPEED ≤ 5 ∧
      (update P0 E0 initState cc0 csDrive5).2.2.filter (fun m => stage m == 0) =
        [CanMsg.doorLockCmd false] := by
  with_unfolding_all decide

/-- C7 (amended).  With doors closed and both door-automation flags
enabled, the cycle sequence drive at 5 m/s, drive at 12 m/s, park, drive
at 12 m/s emits exactly: a single lock command already on the first drive
cycle (5 m/s is at / above the 10 km/h threshold), no door command on the
second drive cycle (single-shot latch), one unlock command on the
transition into park (which also resets the latch), and one further lock
command after returning to drive above the threshold. -/
theorem doorScenario_trace :
    (update P0 E0 initState cc0 csDrive5).2.2.filter (fun m => stage m == 0) =
        [CanMsg.doorLockCmd false]
    ∧ (update P0 E0 doorS1 cc0 csDrive12).2.2.filter (fun m => stage m == 0) = []
    ∧ (update P0 E0 doorS2 cc0 csPark).2.2.filter (fun m => stage m == 0) =
        [CanMsg.doorLockCmd true]
    ∧ (update P0 E0 doorS3 cc0 csDrive12).2.2.filter (fun m => stage m == 0) =
        [CanMsg.doorLockCmd false] := by
  with_unfolding_all decide

/-! ### Lateral stage (C1, C3). -/

theorem update_state_counter (P : CarParams) (E : Externals) (s : CarControllerState)
    (cc : CarControl) (cs : CarState) :
    (update P E s cc cs).1.steer_rate_counter = (lateralStep P E s cc cs).2.2.1 := rfl

theorem update_act_steerOutputCan (P : CarParams) (E : Externals) (s : CarControllerState)
    (cc : CarControl) (cs : CarState) :
    (update P E s cc cs).2.1.steerOutputCan = (lateralStep P E s cc cs).1 := rfl

theorem lateralStep_inactive (P : CarParams) (E : Externals) (s : CarControllerState)
    (cc : CarControl) (cs : CarState) (h : lat_active_calc cc cs = false) :
    (lateralStep P E s cc cs).1 = 0 ∧ (lateralStep P E s cc cs).2.1 = 0 ∧
      (lateralStep P E s cc cs).2.2.1 = 0 := by
  unfold lateralStep
  dsimp only
  rw [h]
  simp only [Bool.false_and, Bool.not_false, if_true]
  split
  · split <;> simp
  · simp

/-- The steer-rate fault counter after one cycle, as a closed form: it
increments while lateral control is active and the measured rate is at /
above the threshold, resets on the fault-cut cycle, and resets to zero
otherwise. -/
theorem lateralStep_counter (P : CarParams) (E : Externals) (s : CarControllerState)
    (cc : CarControl) (cs : CarState) :
    (lateralStep P E s cc cs).2.2.1 =
      if lat_active_calc cc cs && decide (MAX_STEER_RATE ≤ rabs cs.steeringRateDeg) then
        (if MAX_STEER_RATE_FRAMES < s.steer_rate_counter + 1 then 0
         else s.steer_rate_counter + 1)
      else 0 := by
  unfold lateralStep
  dsimp only
  rcases hl : lat_active_calc cc cs with _ | _
  · simp only [Bool.false_and, Bool.not_false, if_true, if_false]
    split
    · split <;> simp
    · simp
  · simp only [Bool.true_and, Bool.not_true]
    rcases hr : decide (MAX_STEER_RATE ≤ rabs cs.steeringRateDeg) with _ | _
    · simp only [if_false, Bool.false_eq_true, decide_eq_true_eq]
      split
      · split <;> simp
      · simp
    · simp only [if_true]
      split
      · split <;>
          (by_cases hcnt : MAX_STEER_RATE_FRAMES < s.steer_rate_counter + 1 <;> simp [hcnt])
      · by_cases hcnt : MAX_STEER_RATE_FRAMES < s.steer_rate_counter + 1 <;> simp [hcnt]

/-- On a fault-cut cycle (condition held, counter already at the frame
threshold) the request flag is forced to 0 in both steer control modes. -/
theorem lateralStep_req_fault (P : CarParams) (E : Externals) (s : CarControllerState)
    (cc : CarControl) (cs : CarState)
    (hl : lat_active_calc cc cs = true)
    (hr : decide (MAX_STEER_RATE ≤ rabs cs.steeringRateDeg) = true)
    (hcnt : MAX_STEER_RATE_FRAMES < s.steer_rate_counter + 1) :
    (lateralStep P E s cc cs).2.1 = 0 := by
  unfold lateralStep
  dsimp only
  rw [hl, hr]
  simp only [Bool.and_self, if_true, Bool.not_true]
  split
  · split <;> simp
  · simp [hcnt]

/-- The per-cycle condition of the steer-rate fault rule: lateral control
active (caller request plus driver-torque check) and measured rate at /
above `MAX_STEER_RATE`. -/
def rateFaultCond (cc : CarControl) (cs : CarState) : Prop :=
  lat_active_calc cc cs = true ∧ MAX_STEER_RATE ≤ rabs cs.steeringRateDeg

instance (cc : CarControl) (cs : CarState) : Decidable (rateFaultCond cc cs) := by
  unfold rateFaultCond
  exact inferInstance

theorem runSt_counter (P : CarParams) (E : Externals) :
    ∀ (l : List (CarControl × CarState)) (s : CarControllerState),
      (∀ i ∈ l, rateFaultCond i.1 i.2) →
      s.steer_rate_counter + l.length ≤ MAX_STEER_RATE_FRAMES →
      (runSt P E s l).steer_rate_counter = s.steer_rate_counter + l.length := by
  intro l
  induction l with
  | nil =>
      intro s _ _
      simp [runSt]
  | cons a t ih =>
      intro s hall hle
      have hc := hall a (List.mem_cons_self a t)
      have hstep : (stepSt P E s a).steer_rate_counter = s.steer_rate_counter + 1 := by
        show (update P E s a.1 a.2).1.steer_rate_counter = _
        rw [update_state_counter, lateralStep_counter, if_pos, if_neg]
        · simp at hle
          omega
        · simp [hc.1, hc.2]
      have ht := ih (stepSt P E s a) (fun i hi => hall i (List.mem_cons_of_mem a hi))
        (by rw [hstep]; simp at hle ⊢; omega)
      show (runSt P E (stepSt P E s a) t).steer_rate_counter = _
      rw [ht, hstep]
      simp
      omega

/-- C1.  Steer-rate fault avoidance: (a) in a cycle where the fault
condition (lateral active and measured rate magnitude at / above 100
deg/s) does not hold, the counter resets to 0; (b) while it holds and the
frame threshold of 18 is not yet exceeded, the counter increments by 1;
(c) when it holds with the counter already at 18 (the 19th consecutive
such cycle), the emitted steer command carries request flag 0 and the
counter resets to 0 the same cycle; and (d) along any run of 18
consecutive fault-condition cycles started at counter 0, a 19th
fault-condition cycle emits request flag 0 and leaves the counter at 0. -/
theorem steerRateFaultBehavior (P : CarParams) (E : Externals) (s : CarControllerState)
    (cc : CarControl) (cs : CarState) :
    (¬rateFaultCond cc cs → (update P E s cc cs).1.steer_rate_counter = 0)
    ∧ (rateFaultCond cc cs → s.steer_rate_counter + 1 ≤ MAX_STEER_RATE_FRAMES →
        (update P E s cc cs).1.steer_rate_counter = s.steer_rate_counter + 1)
    ∧ (rateFaultCond cc cs → MAX_STEER_RATE_FRAMES < s.steer_rate_counter + 1 →
        (update P E s cc cs).1.steer_rate_counter = 0 ∧
          (update P E s cc cs).2.2.filter (fun m => stage m == 1) =
            [CanMsg.steerCommand (lateralStep P E s cc cs).1 0])
    ∧ (∀ l : List (CarControl × CarState), l.length = MAX_STEER_RATE_FRAMES →
        (∀ i ∈ l, rateFaultCond i.1 i.2) → s.steer_rate_counter = 0 →
        rateFaultCond cc cs →
        (update P E (runSt P E s l) cc cs).1.steer_rate_counter = 0 ∧
          (update P E (runSt P E s l) cc cs).2.2.filter (fun m => stage m == 1) =
            [CanMsg.steerCommand (lateralStep P E (runSt P E s l) cc cs).1 0]) := by
  have key : ∀ (s2 : CarControllerState), rateFaultCond cc cs →
      MAX_STEER_RATE_FRAMES < s2.steer_rate_counter + 1 →
      (update P E s2 cc cs).1.steer_rate_counter = 0 ∧
        (update P E s2 cc cs).2.2.filter (fun m => stage m == 1) =
          [CanMsg.steerCommand (lateralStep P E s2 cc cs).1 0] := by
    intro s2 hc hcnt
    constructor
    · rw [update_state_counter, lateralStep_counter, if_pos, if_pos hcnt]
      simp [hc.1, hc.2]
    · rw [update_filter_steer, lateralStep_req_fault P E s2 cc cs hc.1 (by simp [hc.2]) hcnt]
  refine ⟨?_, ?_, key s, ?_⟩
  · intro hnc
    rw [update_state_counter, lateralStep_counter, if_neg]
    intro hcond
    rcases Bool.and_eq_true_iff.mp hcond with ⟨h1, h2⟩
    exact hnc ⟨h1, of_decide_eq_true h2⟩
  · intro hc hle
    rw [update_state_counter, lateralStep_counter, if_pos, if_neg (by omega)]
    simp [hc.1, hc.2]
  · intro l hlen hall h0 hc
    have hrc := runSt_counter P E l s hall (by omega)
    exact key (runSt P E s l) hc (by rw [hrc]; omega)

/-- C1 witness: a fresh controller fed 18 consecutive cycles with rate
100 deg/s and lateral active, then a 19th such cycle, cuts the request
flag and resets the counter on that 19th cycle. -/
theorem steerRateFaultBehavior_witness :
    (update P0 E0 (runSt P0 E0 initState
        (List.replicate 18 (cc0, { cs0 with steeringRateDeg := 100 })))
        cc0 { cs0 with steeringRateDeg := 100 }).1.steer_rate_counter = 0 ∧
      (update P0 E0 (runSt P0 E0 initState
          (List.replicate 18 (cc0, { cs0 with steeringRateDeg := 100 })))
          cc0 { cs0 with steeringRateDeg := 100 }).2.2.filter (fun m => stage m == 1) =
        [CanMsg.steerCommand (lateralStep P0 E0 (runSt P0 E0 initState
            (List.replicate 18 (cc0, { cs0 with steeringRateDeg := 100 })))
            cc0 { cs0 with steeringRateDeg := 100 }).1 0] :=
  (steerRateFaultBehavior P0 E0 initState cc0 { cs0 with steeringRateDeg := 100 }).2.2.2
    (List.replicate 18 (cc0, { cs0 with steeringRateDeg := 100 }))
    (by with_unfolding_all decide)
    (by with_unfolding_all decide)
    rfl
    (by with_unfolding_all decide)

/-- C3 counterexample: at measured driver torque exactly 500 with the
caller requesting lateral activation, the code treats lateral control as
inactive — the emitted steer command is torque 0 / request 0 — although
the claim's stated condition for inactivity ("magnitude exceeds the
500-unit threshold") is false there. -/
theorem latActiveBoundary_counterexample :
    lat_active_calc cc0 { cs0 with steeringTorque := 500 } = false
    ∧ ¬(cc0.latActive = false ∨
        MAX_USER_TORQUE < rabs ({ cs0 with steeringTorque := 500 } : CarState).steeringTorque)
    ∧ (update P0 E0 initState cc0 { cs0 with steeringTorque := 500 }).2.2.filter
        (fun m => stage m == 1) = [CanMsg.steerCommand 0 0] := by
  with_unfolding_all decide

/-- C3 (amended).  Lateral control is treated as inactive exactly when the
caller does not request lateral activation or the measured driver
steering torque magnitude is at or above the 500-unit override threshold;
whenever it is inactive, the applied steer torque and the steer-request
flag are forced to 0 (overriding any computed torque): the cycle's steer
command message is torque 0 / request 0 and the echoed steer output is
0. -/
theorem latInactiveForcesZero (P : CarParams) (E : Externals) (s : CarControllerState)
    (cc : CarControl) (cs : CarState) :
    (lat_active_calc cc cs = false ↔
      (cc.latActive = false ∨ MAX_USER_TORQUE ≤ rabs cs.steeringTorque))
    ∧ (lat_active_calc cc cs = false →
        (lateralStep P E s cc cs).1 = 0 ∧ (lateralStep P E s cc cs).2.1 = 0 ∧
        (update P E s cc cs).2.2.filter (fun m => stage m == 1) =
          [CanMsg.steerCommand 0 0] ∧
        (update P E s cc cs).2.1.steerOutputCan = 0) := by
  constructor
  · unfold lat_active_calc
    rcases cc.latActive with _ | _ <;> simp [not_lt]
  · intro h
    obtain ⟨h1, h2, _⟩ := lateralStep_inactive P E s cc cs h
    refine ⟨h1, h2, ?_, ?_⟩
    · rw [update_filter_steer, h1, h2]
    · rw [update_act_steerOutputCan, h1]

/-- C3 witness: with driver torque 600 (above the threshold) the steer
command of the cycle is forced to torque 0 / request 0. -/
theorem latInactiveForcesZero_witness :
    (update P0 E0 initState cc0 { cs0 with steeringTorque := 600 }).2.2.filter
        (fun m => stage m == 1) = [CanMsg.steerCommand 0 0] :=
  ((latInactiveForcesZero P0 E0 initState cc0 { cs0 with steeringTorque := 600 }).2
    (by with_unfolding_all decide)).2.2.1

/-! ### Standstill request (C5). -/

theorem update_state_ssr (P : CarParams) (E : Externals) (s : CarControllerState)
    (cc : CarControl) (cs : CarState) :
    (update P E s cc cs).1.standstill_req = standstillReqNext P s cs := rfl

/-- Closed form of the standstill-request update: it is set by the entry
edge, kept while already set, and cleared whenever the PCM status code is
not the active-standstill value 8 — all in the same cycle, with the clear
taking precedence. -/
theorem standstillReqNext_eq (P : CarParams) (s : CarControllerState) (cs : CarState) :
    standstillReqNext P s cs =
      ((s.standstill_req || standstillEntryCond P s cs) && decide (cs.pcm_acc_status = 8)) := by
  unfold standstillReqNext
  dsimp only
  by_cases h8 : cs.pcm_acc_status ≠ 8
  · rw [if_pos h8]
    simp [h8]
  · rw [if_neg h8]
    push_neg at h8
    by_cases he : standstillEntryCond P s cs = true
    · simp [he, h8]
    · rw [Bool.not_eq_true] at he
      simp [he, h8]

theorem runSt_ssr (P : CarParams) (E : Externals) :
    ∀ (l : List (CarControl × CarState)) (s : CarControllerState),
      s.standstill_req = true → (∀ i ∈ l, i.2.pcm_acc_status = 8) →
      (runSt P E s l).standstill_req = true := by
  intro l
  induction l with
  | nil =>
      intro s hs _
      exact hs
  | cons a t ih =>
      intro s hs hall
      show (runSt P E (stepSt P E s a) t).standstill_req = true
      refine ih (stepSt P E s a) ?_ fun i hi => hall i (List.mem_cons_of_mem a hi)
      show (update P E s a.1 a.2).1.standstill_req = true
      rw [update_state_ssr, standstillReqNext_eq, hs]
      simp [hall a (List.mem_cons_self a t)]

/-- C5.  Standstill-request persistence: (a) the stored request after a
cycle equals (previous request OR entry edge) AND (PCM status = 8) — the
entry edge being a fresh standstill with the suppression flag unset and
the vehicle not in the no-stop-timer class or fitted with a gas
interceptor; hence (b) once the request is true it stays true through
every later cycle whose status code is 8, independently of the standstill
flag, and (c) it becomes false on any cycle whose status code is not 8. -/
theorem standstillReqPersistence (P : CarParams) (E : Externals) (s : CarControllerState)
    (cc : CarControl) (cs : CarState) :
    ((update P E s cc cs).1.standstill_req =
      ((s.standstill_req || standstillEntryCond P s cs) && decide (cs.pcm_acc_status = 8)))
    ∧ (s.standstill_req = true →
        ∀ l : List (CarControl × CarState), (∀ i ∈ l, i.2.pcm_acc_status = 8) →
          (runSt P E s l).standstill_req = true)
    ∧ (cs.pcm_acc_status ≠ 8 → (update P E s cc cs).1.standstill_req = false) := by
  refine ⟨by rw [update_state_ssr, standstillReqNext_eq], ?_, ?_⟩
  · intro hs l hall
    exact runSt_ssr P E l s hs hall
  · intro h8
    rw [update_state_ssr, standstillReqNext_eq]
    simp [h8]

/-- C5 witness: a pending request persists through a status-8 cycle whose
standstill flag is already clear. -/
theorem standstillReqPersistence_witness :
    (runSt P0 E0 { initState with standstill_req := true } [(cc0, cs0)]).standstill_req = true :=
  (standstillReqPersistence P0 E0 { initState with standstill_req := true } cc0 cs0).2.1 rfl
    [(cc0, cs0)] (by with_unfolding_all decide)

/-! ### Longitudinal cadence (C4). -/

/-- C4.  Longitudinal message cadence with immediate cancel: an accel /
cancel longitudinal message (stage 3: `create_accel_command` or
`create_acc_cancel_command`) is in a cycle's output if and only if
(frame mod 3 = 0 and the vehicle is configured for openpilot longitudinal
control) or a cancel is pending that cycle (the caller's request or the
forced cancel on the engaged-while-disabled inconsistency); in
particular, at frame 300 with longitudinal control enabled and no pending
cancel a message is emitted, and at frame 301 in the same state none
is. -/
theorem longCadence (P : CarParams) (E : Externals) (s : CarControllerState)
    (cc : CarControl) (cs : CarState) :
    ((update P E s cc cs).2.2.any (fun m => stage m == 3) = true ↔
      ((s.frame % 3 = 0 ∧ P.openpilotLongitudinalControl = true) ∨
        pcm_cancel_calc cc cs = true))
    ∧ (update P0 E0 { initState with frame := 300 } cc0 cs0).2.2.any
        (fun m => stage m == 3) = true
    ∧ (update P0 E0 { initState with frame := 301 } cc0 cs0).2.2.any
        (fun m => stage m == 3) = false := by
  refine ⟨?_, by with_unfolding_all decide, by with_unfolding_all decide⟩
  rw [any_iff_filter_ne_nil, update_filter_long]
  unfold longStep
  dsimp only
  by_cases hco : ((decide (s.frame % 3 = 0) && P.openpilotLongitudinalControl) ||
      pcm_cancel_calc cc cs) = true
  · simp only [hco, if_true]
    constructor
    · intro _
      simpa using hco
    · intro _
      split
      · simp
      · split <;> simp
  · rw [Bool.not_eq_true] at hco
    simp only [hco, Bool.false_eq_true, if_false]
    constructor
    · intro h
      exact absurd rfl h
    · rintro (⟨h3, hl⟩ | hcan)
      · simp [h3, hl] at hco
      · simp [hcan] at hco

/-- C4 witness: at frame 3 (a cadence boundary) with openpilot
longitudinal control and no cancel, a longitudinal message is present. -/
theorem longCadence_witness :
    (update P0 E0 { initState with frame := 3 } cc0 cs0).2.2.any
      (fun m => stage m == 3) = true :=
  (longCadence P0 E0 { initState with frame := 3 } cc0 cs0).1.mpr
    (Or.inl (by with_unfolding_all decide))

/-! ### Pedal emulation (C2). -/

theorem gasStep_val (P : CarParams) (s : CarControllerState) (cc : CarControl)
    (cs : CarState) : ∀ g n, CanMsg.gasInterceptorCommand g n ∈ (gasStep P s cc cs).1 →
    g = interceptor_gas_cmd_calc P cc cs := by
  intro g n hm
  unfold gasStep at hm
  split at hm
  · simp at hm
    exact hm.1
  · simp at hm

/-- C2.  Pedal-emulation zero guarantee: (a) whenever longitudinal
control is inactive or the vehicle lacks a gas interceptor, the computed
pedal command is exactly 0, for any input; (b) when both hold, it equals
the per-vehicle-class speed-interpolated scale factor times (desired
acceleration plus the speed-interpolated creep / windbrake offset),
clamped to [0, 1/2]; and (c) every gas-interceptor message a cycle emits
carries exactly this computed value. -/
theorem pedalZeroGuarantee (P : CarParams) (E : Externals) (s : CarControllerState)
    (cc : CarControl) (cs : CarState) :
    ((P.enableGasInterceptor = false ∨ cc.longActive = false) →
      interceptor_gas_cmd_calc P cc cs = 0)
    ∧ (P.enableGasInterceptor = true → cc.longActive = true →
        interceptor_gas_cmd_calc P cc cs =
          clip (PEDAL_SCALE_calc P cs.vEgo * (cc.actuators.accel + pedal_offset_calc P cs.vEgo))
            0 MAX_INTERCEPTOR_GAS)
    ∧ (∀ g n, CanMsg.gasInterceptorCommand g n ∈ (update P E s cc cs).2.2 →
        g = interceptor_gas_cmd_calc P cc cs) := by
  refine ⟨?_, ?_, ?_⟩
  · intro h
    unfold interceptor_gas_cmd_calc
    rcases h with h | h <;> simp [h]
  · intro h1 h2
    unfold interceptor_gas_cmd_calc
    simp [h1, h2]
  · intro g n hm
    rw [@mem_update_iff_mem_filter P E s cc cs (CanMsg.gasInterceptorCommand g n) 4 rfl,
        update_filter_gas] at hm
    exact gasStep_val P s cc cs g n hm

/-- C2 witness: with no gas interceptor configured, the computed pedal
command is 0. -/
theorem pedalZeroGuarantee_witness : interceptor_gas_cmd_calc P0 cc0 cs0 = 0 :=
  (pedalZeroGuarantee P0 E0 initState cc0 cs0).1 (Or.inl (by with_unfolding_all decide))

/-! ### UI alert edge (C6). -/

theorem update_state_alert (P : CarParams) (E : Externals) (s : CarControllerState)
    (cc : CarControl) (cs : CarState) :
    (update P E s cc cs).1.alert_active = (uiStep P s cc cs).2.2 := rfl

/-- The caller input used by the C6 instances: an FCW visual alert. -/
def ccFcw : CarControl := { cc0 with hudControl := { hud0 with visualAlert := VisualAlert.fcw } }

/-- C6 counterexample: the claim quantifies over every vehicle, but for
the PRIUS V fingerprint the source skips the whole UI block — on a cycle
where the freshly computed alert condition (true: FCW) differs from the
latched state (false), no UI alert message is appended and the latch does
not toggle. -/
theorem uiAlertPrius_counterexample :
    alertCondCalc ccFcw.hudControl = true
    ∧ initState.alert_active = false
    ∧ (update { P0 with carIsPriusV := true } E0 { initState with frame := 1 }
        ccFcw cs0).2.2.any (fun m => stage m == 5) = false
    ∧ (update { P0 with carIsPriusV := true } E0 { initState with frame := 1 }
        ccFcw cs0).1.alert_active = false := by
  with_unfolding_all decide

/-- C6 (amended).  For every vehicle other than the PRIUS V: on each
cycle where the freshly computed alert condition (forward-collision,
steer-required or lane-departure) differs from the latched alert state, a
UI alert message is appended regardless of the 20-cycle cadence and the
latch toggles to the new value; on a cycle where it does not differ, the
latch is unchanged and a UI message is appended exactly when the 20-cycle
cadence is due or a cancel is pending — so an unchanged alert state never
triggers a second edge-triggered send. -/
theorem uiAlertEdge (P : CarParams) (E : Externals) (s : CarControllerState)
    (cc : CarControl) (cs : CarState) (hP : P.carIsPriusV = false) :
    (alertCondCalc cc.hudControl ≠ s.alert_active →
        ((update P E s cc cs).2.2.any (fun m => stage m == 5) = true ∧
          (update P E s cc cs).1.alert_active = alertCondCalc cc.hudControl))
    ∧ (alertCondCalc cc.hudControl = s.alert_active →
        ((update P E s cc cs).1.alert_active = s.alert_active ∧
          ((update P E s cc cs).2.2.any (fun m => stage m == 5) = true ↔
            (s.frame % 20 = 0 ∨ pcm_cancel_calc cc cs = true)))) := by
  have hPne : ¬(P.carIsPriusV = true) := by simp [hP]
  have halert : (update P E s cc cs).1.alert_active = (uiStep P s cc cs).2.2 := rfl
  constructor
  · intro hne
    have hcond : (decide (cc.hudControl.visualAlert = VisualAlert.fcw) ||
        (decide (cc.hudControl.visualAlert = VisualAlert.steerRequired) ||
          decide (cc.hudControl.visualAlert = VisualAlert.ldw))) ≠ s.alert_active := hne
    constructor
    · rw [any_iff_filter_ne_nil, update_filter_ui]
      unfold uiStep
      dsimp only
      rw [if_neg hPne]
      dsimp only
      rw [if_pos hcond]
      dsimp only
      rw [if_pos (by simp)]
      simp
    · rw [halert]
      unfold uiStep
      dsimp only
      rw [if_neg hPne]
      dsimp only
      rw [if_pos hcond]
      dsimp only
      unfold alertCondCalc
      rcases hb : (decide (cc.hudControl.visualAlert = VisualAlert.fcw) ||
          (decide (cc.hudControl.visualAlert = VisualAlert.steerRequired) ||
            decide (cc.hudControl.visualAlert = VisualAlert.ldw))) with _ | _ <;>
        rcases ha : s.alert_active with _ | _ <;> simp_all
  · intro heq
    have hcond : ¬((decide (cc.hudControl.visualAlert = VisualAlert.fcw) ||
        (decide (cc.hudControl.visualAlert = VisualAlert.steerRequired) ||
          decide (cc.hudControl.visualAlert = VisualAlert.ldw))) ≠ s.alert_active) :=
      fun hh => hh heq
    constructor
    · rw [halert]
      unfold uiStep
      dsimp only
      rw [if_neg hPne]
      dsimp only
      rw [if_neg hcond]
      by_cases hpc : pcm_cancel_calc cc cs = true
      · rw [if_pos hpc]
      · rw [if_neg hpc]
    · rw [any_iff_filter_ne_nil, update_filter_ui]
      unfold uiStep
      dsimp only
      rw [if_neg hPne]
      dsimp only
      rw [if_neg hcond]
      by_cases hpc : pcm_cancel_calc cc cs = true
      · rw [if_pos hpc]
        dsimp only
        rw [if_pos (by simp)]
        simp [hpc]
      · rw [if_neg hpc]
        dsimp only
        by_cases h20 : s.frame % 20 = 0
        · rw [if_pos (by simp [h20])]
          simp [h20]
        · rw [if_neg (by simp [h20])]
          simp [h20, hpc]

/-- C6 witness: on a non-Prius-V vehicle at frame 1 (off-cadence), a
fresh FCW alert triggers an immediate UI send and toggles the latch. -/
theorem uiAlertEdge_witness :
    (update P0 E0 { initState with frame := 1 } ccFcw cs0).2.2.any
        (fun m => stage m == 5) = true
    ∧ (update P0 E0 { initState with frame := 1 } ccFcw cs0).1.alert_active =
        alertCondCalc ccFcw.hudControl :=
  (uiAlertEdge P0 E0 { initState with frame := 1 } ccFcw cs0 rfl).1
    (by with_unfolding_all decide)

/-! ### Commanded-angle bound (C10). -/

theorem update_state_angle (P : CarParams) (E : Externals) (s : CarControllerState)
    (cc : CarControl) (cs : CarState) :
    (update P E s cc cs).1.last_angle = (lateralStep P E s cc cs).2.2.2 := rfl

theorem clip_abs_le (x M : ℚ) (hM : 0 ≤ M) : rabs (clip x (-M) M) ≤ M := by
  unfold clip rabs
  dsimp only
  split_ifs <;> linarith

theorem lateralStep_angle_bound (P : CarParams) (E : Externals) (s : CarControllerState)
    (cc : CarControl) (cs : CarState) (h : rabs s.last_angle ≤ MAX_STEER_ANGLE) :
    rabs (lateralStep P E s cc cs).2.2.2 ≤ MAX_STEER_ANGLE := by
  unfold lateralStep
  dsimp only
  split
  · split
    · exact clip_abs_le _ _ (by norm_num [MAX_STEER_ANGLE])
    · exact h
  · exact h

theorem ltaMsg_angle (P : CarParams) (s : CarControllerState) (cc : CarControl)
    (cs : CarState) (la : ℚ) :
    ∀ a b c d, CanMsg.ltaSteerCommand a b c d ∈ ltaMsgList P s cc cs la →
      a = la ∨ a = 0 := by
  intro a b c d hm
  unfold ltaMsgList at hm
  dsimp only at hm
  split at hm
  · simp at hm
    obtain ⟨ha, -⟩ := hm
    split at ha
    · exact Or.inl ha
    · exact Or.inr ha
  · simp at hm

/-- The angle-control configuration used by the C10 counterexample. -/
def PAngleTSS2 : CarParams := { P0 with steerControlTypeAngle := true, carInTSS2 := true }

/-- The caller input of the C10 counterexample: lateral not requested. -/
def ccLatOff : CarControl := { cc0 with latActive := false }

/-- The snapshot of the C10 counterexample: measured angle 30 degrees. -/
def csAngle30 : CarState := { cs0 with steeringAngleDeg := 30 }

/-- C10 counterexample: with angle control inactive the stored commanded
angle is updated to the measured angle (30 degrees) while the emitted LTA
steer message carries angle 0 — so the LTA message does not always use
the stored value, contrary to the claim.  (The echoed `steeringAngleDeg`
does use the stored value.) -/
theorem ltaAngleMsg_counterexample :
    (update PAngleTSS2 E0 initState ccLatOff csAngle30).1.last_angle = 30
    ∧ (update PAngleTSS2 E0 initState ccLatOff csAngle30).2.2.filter
        (fun m => stage m == 2) = [CanMsg.ltaSteerCommand 0 false 0 0]
    ∧ (update PAngleTSS2 E0 initState ccLatOff csAngle30).2.1.steeringAngleDeg = 30 := by
  with_unfolding_all decide

/-- C10 (amended).  The stored last commanded steering angle is 0 at
construction and, whenever it is within [-94.9461, 94.9461] degrees
before a cycle, it stays within that range after the cycle; the echoed
`steeringAngleDeg` field always equals the stored value, and the LTA
steer message uses the stored value when LTA is active and 0 otherwise —
so every emitted or echoed angle is bounded by the EPS fault threshold in
magnitude. -/
theorem lastAngleBounded (P : CarParams) (E : Externals) (s : CarControllerState)
    (cc : CarControl) (cs : CarState) (h : rabs s.last_angle ≤ MAX_STEER_ANGLE) :
    initState.last_angle = 0
    ∧ rabs (update P E s cc cs).1.last_angle ≤ MAX_STEER_ANGLE
    ∧ (update P E s cc cs).2.1.steeringAngleDeg = (update P E s cc cs).1.last_angle
    ∧ ∀ a b c d, CanMsg.ltaSteerCommand a b c d ∈ (update P E s cc cs).2.2 →
        rabs a ≤ MAX_STEER_ANGLE := by
  refine ⟨rfl, lateralStep_angle_bound P E s cc cs h, rfl, ?_⟩
  intro a b c d hm
  rw [@mem_update_iff_mem_filter P E s cc cs (CanMsg.ltaSteerCommand a b c d) 2 rfl,
      update_filter_lta] at hm
  rcases ltaMsg_angle P s cc cs _ a b c d hm with ha | ha
  · rw [ha]
    exact lateralStep_angle_bound P E s cc cs h
  · rw [ha]
    show rabs 0 ≤ MAX_STEER_ANGLE
    norm_num [rabs, MAX_STEER_ANGLE]

/-- C10 witness: from the construction state the commanded angle stays
within the fault threshold after a cycle. -/
theorem lastAngleBounded_witness :
    rabs (update P0 E0 initState cc0 cs0).1.last_angle ≤ MAX_STEER_ANGLE :=
  (lastAngleBounded P0 E0 initState cc0 cs0 (by with_unfolding_all decide)).2.1

end ToyotaCC
